import Mathlib

/-
Verification of the Periodic Stats Collector
(source: write_stats_collector.py, Go package `container`).

The collector is embedded shallowly as trace-producing functions.  External
black-box dependencies (the registry query `db.GetRunningInstances`, the
runtime stats call `manager.GetInstanceStats`, and the storage pruning call
`db.PruneResourceUsage`) are passed in as explicit function parameters, in
line with the source treating them as opaque calls.  Every observable action
of the collector (context creation/cancellation, stats-fetch calls, log
statements, the pruning call) is recorded as an `Event` in the order in which
the source performs it.
-/

namespace LaunchStack

/-- An instance row as returned by the registry query `db.GetRunningInstances`:
a unique identifier `ID` and a (possibly empty) runtime container identifier
`ContainerID`.  The identifier type is opaque in the source; we model it as
`Nat`. -/
structure Instance where
  ID : Nat
  ContainerID : String
deriving DecidableEq, Repr

/-- Observable actions of the collector, recorded in program order.
`ctxCreate c t` is `context.WithTimeout(context.Background(), t seconds)`
creating context number `c`; `ctxCancel c` is the corresponding `cancel()`;
`fetchStats c i` is `s.manager.GetInstanceStats(ctx_c, i)`; the `log*`
constructors are the logger calls of the source. -/
inductive Event where
  | pruneCall (maxPerInstance : Nat)
  | logPruneError
  | logDebugCount (count : Nat)
  | ctxCreate (ctx : Nat) (timeoutSeconds : Nat)
  | fetchStats (ctx : Nat) (instanceId : Nat)
  | logFetchError (instanceId : Nat) (containerId : String) (err : String)
  | ctxCancel (ctx : Nat)
  | logCollectError
  | logStopped
deriving DecidableEq, Repr

/-- The `for _, instance := range instances` body of `collectStats`
(lines 75-95 of the source): skip instances with an empty container
identifier; otherwise create a context with a 5-second timeout, issue the
stats-fetch call, log a failure with the instance and container identifiers,
and cancel the context.  `fetch` is the black-box
`s.manager.GetInstanceStats` keyed by instance identifier (its opaque stats
payload is modelled as `Unit`, since the source discards it); `n` numbers the
contexts created so far, so that each iteration's context is a fresh one. -/
def collectLoop (fetch : Nat → Except String Unit) :
    List Instance → Nat → List Event
  | [], _ => []
  | inst :: rest, n =>
    if inst.ContainerID = "" then
      collectLoop fetch rest n
    else
      match fetch inst.ID with
      | Except.ok _ =>
          Event.ctxCreate n 5 :: Event.fetchStats n inst.ID ::
            Event.ctxCancel n :: collectLoop fetch rest (n + 1)
      | Except.error e =>
          Event.ctxCreate n 5 :: Event.fetchStats n inst.ID ::
            Event.logFetchError inst.ID inst.ContainerID e ::
            Event.ctxCancel n :: collectLoop fetch rest (n + 1)

/-- `collectStats` (lines 65-98 of the source): query the registry for the
running instances; on failure return the error at once (no events happen);
on success log the debug count and run the per-instance loop, returning `none`
(the source's `return nil`).  Result: the event trace of the tick and the
returned error value. -/
def collectStats (reg : Except String (List Instance))
    (fetch : Nat → Except String Unit) : List Event × Option String :=
  match reg with
  | Except.error err => ([], some err)
  | Except.ok instances =>
      (Event.logDebugCount instances.length :: collectLoop fetch instances 0,
       none)

/-- The `StatsCollector` struct.  The `manager` and `logger` fields are
external black-box bindings and carry no state relevant to the claims; the
`stopChan` channel is modelled by whether it has been closed. -/
structure StatsCollector where
  collectionRate : Nat
  stopChanClosed : Bool
  maxPerInstance : Nat
deriving DecidableEq, Repr

/-- `NewStatsCollector` (lines 21-29): a fresh collector with an open stop
channel and `maxPerInstance` hard-wired to 100. -/
def NewStatsCollector (collectionRate : Nat) : StatsCollector :=
  { collectionRate := collectionRate
    stopChanClosed := false
    maxPerInstance := 100 }

/-- A Go runtime panic relevant to this code: `close` of an already-closed
channel panics. -/
inductive GoPanic where
  | closeOfClosedChannel
deriving DecidableEq, Repr

/-- `Stop` (lines 37-39): `close(s.stopChan)`.  Per Go channel semantics,
closing an open channel marks it closed; closing an already-closed channel
panics, modelled as the `Except.error` branch. -/
def Stop (s : StatsCollector) : Except GoPanic StatsCollector :=
  if s.stopChanClosed then Except.error GoPanic.closeOfClosedChannel
  else Except.ok { s with stopChanClosed := true }

/-- `cleanupOldStats` (lines 101-103): `db.PruneResourceUsage(s.maxPerInstance)`.
`prune` is the black-box storage pruning call; `none` is a nil error. -/
def cleanupOldStats (s : StatsCollector) (prune : Nat → Option String) :
    Option String :=
  prune s.maxPerInstance

/-- The external world visible to one tick: the registry query result and the
stats call, both of which may differ from tick to tick. -/
structure TickEnv where
  getRunningInstances : Except String (List Instance)
  getInstanceStats : Nat → Except String Unit

/-- A wake-up source of the `select` in `run`: the ticker channel fired, or
the stop channel was closed. -/
inductive Signal where
  | tick
  | stop
deriving DecidableEq, Repr

/-- Whether the loop has returned (`stopped`) or is still alive waiting on
the `select` (`awaiting`). -/
inductive LoopResult where
  | stopped
  | awaiting
deriving DecidableEq, Repr

/-- The `for { select { ... } }` loop of `run` (lines 51-61), driven by the
finite list of wake-ups observed so far.  A tick runs `collectStats` against
that tick's environment and logs if it returned an error; a stop wake-up logs
and returns, so later wake-ups are never looked at.  `n` counts the ticks
already taken, selecting each tick's environment from `envs`. -/
def runLoop (envs : Nat → TickEnv) : List Signal → Nat → List Event × LoopResult
  | [], _ => ([], LoopResult.awaiting)
  | Signal.tick :: rest, n =>
      ((collectStats (envs n).getRunningInstances (envs n).getInstanceStats).1
         ++ (match (collectStats (envs n).getRunningInstances
                      (envs n).getInstanceStats).2 with
             | some _ => [Event.logCollectError]
             | none => [])
         ++ (runLoop envs rest (n + 1)).1,
       (runLoop envs rest (n + 1)).2)
  | Signal.stop :: _, _ => ([Event.logStopped], LoopResult.stopped)

/-- `run` (lines 42-62): before any wake-up of the loop, call
`cleanupOldStats` once, logging (but not returning) on failure, then enter
the loop. -/
def run (s : StatsCollector) (prune : Nat → Option String)
    (envs : Nat → TickEnv) (signals : List Signal) : List Event × LoopResult :=
  ((match cleanupOldStats s prune with
    | some _ => [Event.pruneCall s.maxPerInstance, Event.logPruneError]
    | none => [Event.pruneCall s.maxPerInstance])
     ++ (runLoop envs signals 0).1,
   (runLoop envs signals 0).2)

/-- The instance identifier of a stats-fetch event, if it is one. -/
def fetchEventId : Event → Option Nat
  | Event.fetchStats _ i => some i
  | _ => none

/-- The instance identifiers of the stats-fetch calls of a trace, in order. -/
def fetchedIds (t : List Event) : List Nat :=
  t.filterMap fetchEventId

/-- The `(context, timeout)` pair of a context-creation event, if it is one. -/
def createdCtx : Event → Option (Nat × Nat)
  | Event.ctxCreate c t => some (c, t)
  | _ => none

/-- The `(context, timeout)` pairs of the context creations of a trace. -/
def ctxCreates (t : List Event) : List (Nat × Nat) :=
  t.filterMap createdCtx

/-- The context numbers created in a trace, in order. -/
def ctxCreatedIds (t : List Event) : List Nat :=
  (ctxCreates t).map Prod.fst

/-- Whether an event is an invocation of the storage pruning call. -/
def isPruneCall : Event → Bool
  | Event.pruneCall _ => true
  | _ => false

/-- How many times a trace invokes the storage pruning call. -/
def pruneCalls (t : List Event) : Nat :=
  t.countP isPruneCall

/-! ### Trace characterization lemmas -/

theorem fetchedIds_cons_of_none (e : Event) (t : List Event)
    (h : fetchEventId e = none) : fetchedIds (e :: t) = fetchedIds t := by
  simp [fetchedIds, List.filterMap_cons, h]

theorem fetchedIds_cons_fetch (c i : Nat) (t : List Event) :
    fetchedIds (Event.fetchStats c i :: t) = i :: fetchedIds t := by
  simp [fetchedIds, List.filterMap_cons, fetchEventId]

/-- The stats-fetch calls of one per-instance loop are exactly the
identifiers of the instances with a non-empty container identifier, in
registry order, whatever the fetch outcomes are. -/
theorem fetchedIds_collectLoop (fetch : Nat → Except String Unit)
    (instances : List Instance) (n : Nat) :
    fetchedIds (collectLoop fetch instances n)
      = (instances.filter (fun i => i.ContainerID != "")).map Instance.ID := by
  induction instances generalizing n with
  | nil => rfl
  | cons inst rest ih =>
      by_cases h : inst.ContainerID = ""
      · simp [collectLoop, h, ih]
      · cases hf : fetch inst.ID with
        | ok v =>
            simp [collectLoop, h, hf, fetchedIds_cons_of_none, fetchEventId,
              fetchedIds_cons_fetch, ih]
        | error e =>
            simp [collectLoop, h, hf, fetchedIds_cons_of_none, fetchEventId,
              fetchedIds_cons_fetch, ih]

theorem ctxCreates_cons_of_none (e : Event) (t : List Event)
    (h : createdCtx e = none) : ctxCreates (e :: t) = ctxCreates t := by
  simp [ctxCreates, List.filterMap_cons, h]

theorem ctxCreates_cons_create (c tmo : Nat) (t : List Event) :
    ctxCreates (Event.ctxCreate c tmo :: t) = (c, tmo) :: ctxCreates t := by
  simp [ctxCreates, List.filterMap_cons, createdCtx]

/-- The contexts created by one per-instance loop are consecutively numbered
starting at `n`, one per non-skipped instance, and every one of them carries
a 5-second timeout. -/
theorem ctxCreates_collectLoop (fetch : Nat → Except String Unit)
    (instances : List Instance) (n : Nat) :
    ctxCreates (collectLoop fetch instances n)
      = (List.range' n
          ((instances.filter (fun i => i.ContainerID != "")).length)).map
          (fun c => (c, 5)) := by
  induction instances generalizing n with
  | nil => rfl
  | cons inst rest ih =>
      by_cases h : inst.ContainerID = ""
      · simp [collectLoop, h, ih]
      · cases hf : fetch inst.ID with
        | ok v =>
            simp [collectLoop, h, hf, ctxCreates_cons_of_none, createdCtx,
              ctxCreates_cons_create, ih, List.range'_succ]
        | error e =>
            simp [collectLoop, h, hf, ctxCreates_cons_of_none, createdCtx,
              ctxCreates_cons_create, ih, List.range'_succ]

theorem pruneCalls_cons (e : Event) (t : List Event) :
    pruneCalls (e :: t) = (if isPruneCall e then 1 else 0) + pruneCalls t := by
  simp [pruneCalls, List.countP_cons]
  rcases h : isPruneCall e <;> simp [h, Nat.add_comm]

theorem pruneCalls_append (t₁ t₂ : List Event) :
    pruneCalls (t₁ ++ t₂) = pruneCalls t₁ + pruneCalls t₂ := by
  simp [pruneCalls, List.countP_append]

/-- The per-instance loop never invokes the storage pruning call. -/
theorem pruneCalls_collectLoop (fetch : Nat → Except String Unit)
    (instances : List Instance) (n : Nat) :
    pruneCalls (collectLoop fetch instances n) = 0 := by
  induction instances generalizing n with
  | nil => rfl
  | cons inst rest ih =>
      by_cases h : inst.ContainerID = ""
      · rw [collectLoop, if_pos h]
        exact ih n
      · cases hf : fetch inst.ID with
        | ok v =>
            rw [collectLoop, if_neg h, hf]
            rw [pruneCalls_cons, pruneCalls_cons, pruneCalls_cons, ih]
            rfl
        | error e =>
            rw [collectLoop, if_neg h, hf]
            rw [pruneCalls_cons, pruneCalls_cons, pruneCalls_cons,
              pruneCalls_cons, ih]
            rfl

/-- A tick never invokes the storage pruning call. -/
theorem pruneCalls_collectStats (reg : Except String (List Instance))
    (fetch : Nat → Except String Unit) :
    pruneCalls (collectStats reg fetch).1 = 0 := by
  cases reg with
  | error err => rfl
  | ok instances =>
      show pruneCalls (Event.logDebugCount instances.length ::
        collectLoop fetch instances 0) = 0
      rw [pruneCalls_cons, pruneCalls_collectLoop]
      rfl

/-- The tick loop never invokes the storage pruning call. -/
theorem pruneCalls_runLoop (envs : Nat → TickEnv) (signals : List Signal)
    (n : Nat) : pruneCalls (runLoop envs signals n).1 = 0 := by
  induction signals generalizing n with
  | nil => rfl
  | cons sig rest ih =>
      cases sig with
      | tick =>
          rw [runLoop]
          rw [pruneCalls_append, pruneCalls_append,
            pruneCalls_collectStats, ih]
          rcases hcs : (collectStats (envs n).getRunningInstances
              (envs n).getInstanceStats).2 with _ | e <;>
            simp [pruneCalls, isPruneCall]
      | stop => rfl

/-- A failing fetch of one of the listed instances leaves its log line in the
trace of the per-instance loop. -/
theorem logFetchError_mem_collectLoop (fetch : Nat → Except String Unit)
    (inst : Instance) (e : String) (hc : inst.ContainerID ≠ "")
    (hf : fetch inst.ID = Except.error e) :
    ∀ (instances : List Instance) (n : Nat), inst ∈ instances →
      Event.logFetchError inst.ID inst.ContainerID e
        ∈ collectLoop fetch instances n := by
  intro instances
  induction instances with
  | nil =>
      intro n hmem
      cases hmem
  | cons a rest ih =>
      intro n hmem
      rcases List.mem_cons.mp hmem with heq | hmem'
      · subst heq
        rw [collectLoop, if_neg hc, hf]
        exact List.mem_cons_of_mem _ (List.mem_cons_of_mem _
          (List.mem_cons_self _ _))
      · by_cases ha : a.ContainerID = ""
        · rw [collectLoop, if_pos ha]
          exact ih n hmem'
        · cases hfa : fetch a.ID with
          | ok v =>
              rw [collectLoop, if_neg ha, hfa]
              exact List.mem_cons_of_mem _ (List.mem_cons_of_mem _
                (List.mem_cons_of_mem _ (ih (n + 1) hmem')))
          | error ea =>
              rw [collectLoop, if_neg ha, hfa]
              exact List.mem_cons_of_mem _ (List.mem_cons_of_mem _
                (List.mem_cons_of_mem _ (List.mem_cons_of_mem _
                  (ih (n + 1) hmem'))))

/-- Every stats-fetch event of the per-instance loop sits inside a block
that creates its 5-second context before it and cancels that context after
it. -/
theorem fetch_block_sublist (fetch : Nat → Except String Unit) :
    ∀ (instances : List Instance) (n c id : Nat),
      Event.fetchStats c id ∈ collectLoop fetch instances n →
      List.Sublist
        [Event.ctxCreate c 5, Event.fetchStats c id, Event.ctxCancel c]
        (collectLoop fetch instances n) := by
  intro instances
  induction instances with
  | nil =>
      intro n c id hmem
      cases hmem
  | cons a rest ih =>
      intro n c id hmem
      by_cases ha : a.ContainerID = ""
      · rw [collectLoop, if_pos ha] at hmem ⊢
        exact ih n c id hmem
      · cases hfa : fetch a.ID with
        | ok v =>
            rw [collectLoop, if_neg ha, hfa] at hmem ⊢
            simp only [List.mem_cons] at hmem
            rcases hmem with heq | heq | heq | hmem'
            · cases heq
            · rcases Event.fetchStats.inj heq with ⟨rfl, rfl⟩
              exact List.Sublist.cons₂ _ (List.Sublist.cons₂ _
                (List.Sublist.cons₂ _ (List.nil_sublist _)))
            · cases heq
            · exact List.Sublist.cons _ (List.Sublist.cons _
                (List.Sublist.cons _ (ih (n + 1) c id hmem')))
        | error e =>
            rw [collectLoop, if_neg ha, hfa] at hmem ⊢
            simp only [List.mem_cons] at hmem
            rcases hmem with heq | heq | heq | heq | hmem'
            · cases heq
            · rcases Event.fetchStats.inj heq with ⟨rfl, rfl⟩
              exact List.Sublist.cons₂ _ (List.Sublist.cons₂ _
                (List.Sublist.cons _ (List.Sublist.cons₂ _
                  (List.nil_sublist _))))
            · cases heq
            · cases heq
            · exact List.Sublist.cons _ (List.Sublist.cons _
                (List.Sublist.cons _ (List.Sublist.cons _
                  (ih (n + 1) c id hmem'))))

/-! ### The claims -/

/-- Claim C1: in a tick whose registry query succeeded, the sequence of
stats-fetch calls is fully determined by the instance list — whatever the
fetch outcomes (including failures) are, every non-skipped instance is still
fetched — and a failing fetch is logged with the instance and container
identifiers. -/
theorem c1_fetch_failure_never_aborts (instances : List Instance)
    (fetch : Nat → Except String Unit) :
    fetchedIds (collectStats (Except.ok instances) fetch).1
      = (instances.filter (fun i => i.ContainerID != "")).map Instance.ID
  ∧ ∀ inst ∈ instances, inst.ContainerID ≠ "" →
      ∀ e, fetch inst.ID = Except.error e →
        Event.logFetchError inst.ID inst.ContainerID e
          ∈ (collectStats (Except.ok instances) fetch).1 := by
  constructor
  · show fetchedIds (Event.logDebugCount instances.length ::
      collectLoop fetch instances 0) = _
    rw [fetchedIds_cons_of_none (Event.logDebugCount instances.length) _ rfl,
      fetchedIds_collectLoop]
  · intro inst hmem hc e hf
    show Event.logFetchError inst.ID inst.ContainerID e
      ∈ Event.logDebugCount instances.length :: collectLoop fetch instances 0
    exact List.mem_cons_of_mem _
      (logFetchError_mem_collectLoop fetch inst e hc hf instances 0 hmem)

theorem c1_witness :
    Event.logFetchError 1 ("c1") ("boom")
      ∈ (collectStats (Except.ok [⟨1, "c1"⟩])
          (fun _ => Except.error ("boom"))).1 :=
  (c1_fetch_failure_never_aborts [⟨1, "c1"⟩]
      (fun _ => Except.error ("boom"))).2
    ⟨1, "c1"⟩ (List.mem_singleton.mpr rfl) (by decide) ("boom") rfl

/-- Claim C2: a tick whose registry query fails produces no events at all
inside `collectStats` — in particular zero stats-fetch calls — and at the
loop level such a tick contributes only the failure log line before the loop
moves on to the next wake-up (no retry within the tick). -/
theorem c2_registry_failure_skips_tick (err : String)
    (fetch : Nat → Except String Unit) :
    collectStats (Except.error err) fetch = ([], some err)
  ∧ ∀ (envs : Nat → TickEnv) (rest : List Signal) (n : Nat),
      (envs n).getRunningInstances = Except.error err →
      runLoop envs (Signal.tick :: rest) n
        = (Event.logCollectError :: (runLoop envs rest (n + 1)).1,
           (runLoop envs rest (n + 1)).2) := by
  refine ⟨rfl, ?_⟩
  intro envs rest n h
  rw [runLoop, h]
  simp [collectStats]

theorem c2_witness :
    runLoop (fun _ => ⟨Except.error ("regdown"), fun _ => Except.ok ()⟩)
        [Signal.tick] 0
      = ([Event.logCollectError], LoopResult.awaiting) := by
  have h := (c2_registry_failure_skips_tick ("regdown")
      (fun _ => Except.ok ())).2
    (fun _ => ⟨Except.error ("regdown"), fun _ => Except.ok ()⟩) [] 0 rfl
  simpa [runLoop] using h

/-- Claim C3: an instance with an empty container identifier contributes
nothing to the tick's trace: the per-instance loop with it is literally the
per-instance loop without it — no stats-fetch call, no log line, no context
churn for that instance. -/
theorem c3_empty_container_skipped (pre post : List Instance)
    (inst : Instance) (h : inst.ContainerID = "")
    (fetch : Nat → Except String Unit) (n : Nat) :
    collectLoop fetch (pre ++ inst :: post) n
      = collectLoop fetch (pre ++ post) n := by
  induction pre generalizing n with
  | nil =>
      rw [List.nil_append, List.nil_append, collectLoop, if_pos h]
  | cons a rest ih =>
      by_cases ha : a.ContainerID = ""
      · simp only [List.cons_append, collectLoop, if_pos ha]
        exact ih n
      · cases hfa : fetch a.ID with
        | ok v =>
            simp only [List.cons_append, collectLoop, if_neg ha, hfa,
              List.append_eq]
            rw [ih (n + 1)]
        | error e =>
            simp only [List.cons_append, collectLoop, if_neg ha, hfa,
              List.append_eq]
            rw [ih (n + 1)]

theorem c3_witness :
    collectLoop (fun _ => Except.ok ()) [⟨1, "c1"⟩, ⟨2, ""⟩, ⟨3, "c3"⟩] 0
      = collectLoop (fun _ => Except.ok ()) [⟨1, "c1"⟩, ⟨3, "c3"⟩] 0 :=
  c3_empty_container_skipped [⟨1, "c1"⟩] [⟨3, "c3"⟩] ⟨2, ""⟩ rfl
    (fun _ => Except.ok ()) 0

/-- Claim C4: every execution of `run` invokes the storage pruning call
exactly once, as its very first action (before any tick), and the loop's
trace after the startup prefix is the same whether pruning failed (in which
case the failure is logged) or succeeded. -/
theorem c4_prune_once_at_startup (s : StatsCollector)
    (prune : Nat → Option String) (envs : Nat → TickEnv)
    (signals : List Signal) :
    pruneCalls (run s prune envs signals).1 = 1
  ∧ (run s prune envs signals).1.head?
      = some (Event.pruneCall s.maxPerInstance)
  ∧ (∀ e, prune s.maxPerInstance = some e →
      (run s prune envs signals).1
        = Event.pruneCall s.maxPerInstance :: Event.logPruneError
            :: (runLoop envs signals 0).1)
  ∧ (prune s.maxPerInstance = none →
      (run s prune envs signals).1
        = Event.pruneCall s.maxPerInstance :: (runLoop envs signals 0).1) := by
  refine ⟨?_, ?_, ?_, ?_⟩
  · rcases hp : prune s.maxPerInstance with _ | e <;>
      · rw [run]
        simp only [cleanupOldStats, hp]
        rw [pruneCalls_append, pruneCalls_runLoop]
        simp [pruneCalls_cons, isPruneCall, pruneCalls]
  · rcases hp : prune s.maxPerInstance with _ | e <;>
      · rw [run]
        simp [cleanupOldStats, hp]
  · intro e hp
    rw [run]
    simp [cleanupOldStats, hp]
  · intro hp
    rw [run]
    simp [cleanupOldStats, hp]

theorem c4_witness :
    (run (NewStatsCollector 10) (fun _ => some ("diskfull"))
        (fun _ => ⟨Except.ok [], fun _ => Except.ok ()⟩) []).1
      = [Event.pruneCall 100, Event.logPruneError] := by
  have h := (c4_prune_once_at_startup (NewStatsCollector 10)
      (fun _ => some ("diskfull"))
      (fun _ => ⟨Except.ok [], fun _ => Except.ok ()⟩) []).2.2.1
    ("diskfull") rfl
  simpa [NewStatsCollector, runLoop] using h

/-- Claim C5: as long as no stop wake-up has arrived, the loop is still
alive after any sequence of ticks — whatever failures those ticks saw — and
once the stop wake-up arrives the loop logs, terminates, and ignores every
later wake-up, so no further ticks execute. -/
theorem c5_stop_only_termination (envs : Nat → TickEnv)
    (sigs₁ sigs₂ : List Signal) (n : Nat) (h : Signal.stop ∉ sigs₁) :
    (runLoop envs sigs₁ n).2 = LoopResult.awaiting
  ∧ runLoop envs (sigs₁ ++ Signal.stop :: sigs₂) n
      = ((runLoop envs sigs₁ n).1 ++ [Event.logStopped],
         LoopResult.stopped) := by
  induction sigs₁ generalizing n with
  | nil => simp [runLoop]
  | cons sig rest ih =>
      cases sig with
      | tick =>
          have h' : Signal.stop ∉ rest := fun hm =>
            h (List.mem_cons_of_mem _ hm)
          constructor
          · rw [runLoop]
            exact (ih (n + 1) h').1
          · rw [List.cons_append, runLoop, runLoop, (ih (n + 1) h').2]
            simp [List.append_assoc]
      | stop => exact absurd (List.mem_cons_self _ _) h

theorem c5_witness :
    runLoop
        (fun _ => ⟨Except.error ("regdown"), fun _ => Except.error ("down")⟩)
        [Signal.tick, Signal.stop, Signal.tick] 0
      = ([Event.logCollectError, Event.logStopped],
         LoopResult.stopped) := by
  have h := (c5_stop_only_termination
      (fun _ => ⟨Except.error ("regdown"), fun _ => Except.error ("down")⟩)
      [Signal.tick] [Signal.tick] 0 (by decide)).2
  exact h

/-- Claim C6: on the registry result
`[{id 1, "c1"}, {id 2, ""}, {id 3, "c3"}]` a tick issues exactly the two
stats-fetch calls for instances 1 and 3 in that order, and in general the
fetch calls follow the registry order of the instances with a non-empty
container identifier. -/
theorem c6_scenario_two_fetches_in_order (fetch : Nat → Except String Unit) :
    fetchedIds
        (collectStats (Except.ok [⟨1, "c1"⟩, ⟨2, ""⟩, ⟨3, "c3"⟩]) fetch).1
      = [1, 3]
  ∧ ∀ instances : List Instance,
      fetchedIds (collectStats (Except.ok instances) fetch).1
        = (instances.filter (fun i => i.ContainerID != "")).map
            Instance.ID := by
  have key : ∀ instances : List Instance,
      fetchedIds (collectStats (Except.ok instances) fetch).1
        = (instances.filter (fun i => i.ContainerID != "")).map
            Instance.ID := by
    intro instances
    show fetchedIds (Event.logDebugCount instances.length ::
      collectLoop fetch instances 0) = _
    rw [fetchedIds_cons_of_none (Event.logDebugCount instances.length) _ rfl,
      fetchedIds_collectLoop]
  refine ⟨?_, key⟩
  rw [key]
  rfl

/-- Claim C7: within one per-instance loop, every created timeout context
carries exactly a 5-second bound, the created contexts are pairwise distinct
(each fetch gets its own, independently of all others), and every
stats-fetch call is bracketed by the creation of its own context before it
and the cancellation of that same context after it. -/
theorem c7_independent_timeout_contexts (instances : List Instance)
    (fetch : Nat → Except String Unit) (n : Nat) :
    (∀ c t, Event.ctxCreate c t ∈ collectLoop fetch instances n → t = 5)
  ∧ (ctxCreatedIds (collectLoop fetch instances n)).Nodup
  ∧ (∀ c id, Event.fetchStats c id ∈ collectLoop fetch instances n →
      List.Sublist
        [Event.ctxCreate c 5, Event.fetchStats c id, Event.ctxCancel c]
        (collectLoop fetch instances n)) := by
  refine ⟨?_, ?_, fetch_block_sublist fetch instances n⟩
  · intro c t hmem
    have hpair : (c, t) ∈ ctxCreates (collectLoop fetch instances n) :=
      List.mem_filterMap.mpr ⟨_, hmem, rfl⟩
    rw [ctxCreates_collectLoop] at hpair
    obtain ⟨c', -, heq⟩ := List.mem_map.mp hpair
    rw [Prod.ext_iff] at heq
    exact heq.2.symm
  · rw [ctxCreatedIds, ctxCreates_collectLoop, List.map_map]
    have hid : (Prod.fst ∘ fun c => ((c, 5) : Nat × Nat)) = id := rfl
    rw [hid, List.map_id]
    exact List.nodup_range' n _

theorem c7_witness :
    List.Sublist
      [Event.ctxCreate 0 5, Event.fetchStats 0 1, Event.ctxCancel 0]
      (collectLoop (fun _ => Except.ok ()) [⟨1, "c1"⟩] 0) :=
  (c7_independent_timeout_contexts [⟨1, "c1"⟩] (fun _ => Except.ok ()) 0).2.2
    0 1 (by decide)

/-- Claim C8: `NewStatsCollector` hard-wires the per-instance sample cap to
the default 100, `cleanupOldStats` passes exactly that cap to the storage
pruning call, and the startup pruning call of `run` therefore carries 100. -/
theorem c8_default_cap_100 (rate : Nat) (prune : Nat → Option String)
    (envs : Nat → TickEnv) (signals : List Signal) :
    (NewStatsCollector rate).maxPerInstance = 100
  ∧ cleanupOldStats (NewStatsCollector rate) prune = prune 100
  ∧ (run (NewStatsCollector rate) prune envs signals).1.head?
      = some (Event.pruneCall 100) := by
  refine ⟨rfl, rfl, ?_⟩
  rcases hp : prune 100 with _ | e <;>
    · rw [run]
      simp [cleanupOldStats, NewStatsCollector, hp]

/-- Claim C9: `Stop` is not idempotent: on a fresh collector the first
`Stop` closes the stop channel and succeeds, and a second `Stop` on the
resulting state panics by closing an already-closed channel. -/
theorem c9_second_stop_panics (rate : Nat) :
    ∃ s₁, Stop (NewStatsCollector rate) = Except.ok s₁
      ∧ Stop s₁ = Except.error GoPanic.closeOfClosedChannel :=
  ⟨_, rfl, rfl⟩

/-- Claim C10: `collectStats` returns an error exactly when the registry
query failed: a succeeding registry query yields a `nil` return whatever the
per-instance fetch outcomes are, and a failing one returns that failure. -/
theorem c10_error_iff_registry_failure (fetch : Nat → Except String Unit) :
    (∀ instances : List Instance,
      (collectStats (Except.ok instances) fetch).2 = none)
  ∧ (∀ err : String,
      (collectStats (Except.error err) fetch).2 = some err) :=
  ⟨fun _ => rfl, fun _ => rfl⟩

end LaunchStack
